import Mathlib

/-!
Verification of the BPIO2 protocol client (hwh.bpio2_protocol, hwh.backend_buspirate).

Byte sequences are modelled as lists of natural numbers.  Code translated from
src is kept under the source names.  Parts of the repository that are imported
but absent from the source tree (the vendored pybpio client classes and the
generated FlatBuffers accessors) and the external cobs library are modelled
from the spec; each such definition carries a doc comment saying so.
-/

/-- Modelled from the spec: the external cobs library's encode loop (the
repository calls cobs.encode; the library itself is not in the source tree).
COBS splits the input into blocks of at most 254 non-zero bytes; every block
is emitted behind a one-byte code: code 0xFF marks a full 254-byte block with
no implied zero, a code below 0xFF marks a block terminated by a zero of the
original data.  The final block is emitted unless the input ended exactly at a
full 254-byte block boundary. -/
def cobs_encode_loop : List Nat → Bool → List Nat → List Nat
  | block, final_zero, [] =>
      if block = [] ∧ final_zero = false then []
      else (block.length + 1) :: block
  | block, final_zero, b :: rest =>
      if b = 0 then
        ((block.length + 1) :: block) ++ cobs_encode_loop [] true rest
      else if block.length = 253 then
        (255 :: (block ++ [b])) ++ cobs_encode_loop [] false rest
      else
        cobs_encode_loop (block ++ [b]) final_zero rest

/-- Modelled from the spec: cobs.encode of the external cobs library. -/
def cobs_encode (data : List Nat) : List Nat :=
  cobs_encode_loop [] true data

/-- Modelled from the spec: the external cobs library's decode loop.  Each
iteration reads one length code (a zero code is invalid), copies the following
code-1 bytes (which must not contain a zero and must all be present), and, when
more input remains and the code was below 0xFF, re-inserts the zero byte the
encoder removed.  The fuel argument only bounds the recursion; decoding one
block always consumes at least one byte, so fuel equal to the input length is
never exhausted. -/
def cobs_decode_loop : Nat → List Nat → Except Unit (List Nat)
  | 0, _ => .error ()
  | _ + 1, [] => .error ()
  | fuel + 1, code :: rest =>
      if code = 0 then .error ()
      else if 0 ∈ rest.take (code - 1) then .error ()
      else if rest.length < code - 1 then .error ()
      else if rest.drop (code - 1) = [] then .ok (rest.take (code - 1))
      else if code < 255 then
        (cobs_decode_loop fuel (rest.drop (code - 1))).map
          (fun t => rest.take (code - 1) ++ 0 :: t)
      else
        (cobs_decode_loop fuel (rest.drop (code - 1))).map
          (fun t => rest.take (code - 1) ++ t)

/-- Modelled from the spec: cobs.decode of the external cobs library; raises
DecodeError (modelled as Except.error) on input that is not valid COBS, in
particular on any embedded zero byte. -/
def cobs_decode (data : List Nat) : Except Unit (List Nat) :=
  if data = [] then .ok []
  else cobs_decode_loop data.length data

/-- BPIO2Protocol.encode_message: COBS-encode the FlatBuffers payload and
append the 0x00 frame terminator. -/
def encode_message (flatbuffer_data : List Nat) : List Nat :=
  cobs_encode flatbuffer_data ++ [0]

/-- BPIO2Protocol.decode_message: COBS-decode a frame (the caller strips the
terminator before calling; the input is expected without it). -/
def decode_message (cobs_data : List Nat) : Except Unit (List Nat) :=
  cobs_decode cobs_data

/-- BPIO2Protocol instance state: the only instance state in the source is the
_sequence counter, initialised to 0 by the constructor. -/
structure BPIO2Protocol where
  _sequence : Nat
deriving DecidableEq

/-- BPIO2Protocol.__init__: the counter starts at 0. -/
def BPIO2Protocol.init : BPIO2Protocol :=
  { _sequence := 0 }

/-- BPIO2Protocol._next_sequence: return the current counter and advance it by
one, masked to 16 bits. -/
def next_sequence (p : BPIO2Protocol) : Nat × BPIO2Protocol :=
  (p._sequence, { _sequence := (p._sequence + 1) &&& 0xFFFF })

/-- Modelled from the spec: the StatusRequestTypes.All enum tag of the
generated FlatBuffers schema (the generated classes are not in the source
tree); its concrete value is fixed by the external schema and never matters
here. -/
def StatusRequestTypes_All : Int := 0

/-- StatusRequest wire content: the vector of query-type tags. -/
structure StatusRequest where
  query : List Int
deriving DecidableEq

/-- ModeConfiguration wire content: the five mode-specific fields the builder
copies out of the mode_config dict; each is on the wire only when its key was
present in the dict. -/
structure ModeConfiguration where
  speed : Option Int
  data_bits : Option Int
  clock_polarity : Option Int
  clock_phase : Option Int
  chip_select_idle : Option Int
deriving DecidableEq

/-- ConfigurationRequest wire content.  Boolean fields are on the wire exactly
when true, since the builder only ever adds them with value True. -/
structure ConfigurationRequest where
  mode : Option String
  mode_configuration : Option ModeConfiguration
  psu_enable : Bool
  psu_disable : Bool
  psu_set_mv : Option Int
  psu_set_ma : Option Int
  pullup_enable : Bool
  pullup_disable : Bool
deriving DecidableEq

/-- DataRequest wire content. -/
structure DataRequest where
  start_main : Bool
  stop_main : Bool
  start_alt : Bool
  stop_alt : Bool
  data_write : Option (List Nat)
  bytes_read : Option Nat
deriving DecidableEq

/-- The one-of payload of a RequestPacket. -/
inductive RequestPacketContents where
  | statusRequest (r : StatusRequest)
  | configurationRequest (r : ConfigurationRequest)
  | dataRequest (r : DataRequest)
deriving DecidableEq

/-- RequestPacket envelope: sequence number plus tagged payload. -/
structure RequestPacket where
  sequence : Nat
  contents : RequestPacketContents
deriving DecidableEq

/-- Modelled from the spec: canonical serialization of an optional field; an
absent field contributes no bytes at all, a present field contributes its tag,
a length, and its payload. -/
def serializeOpt (tag : Nat) : Option (List Nat) → List Nat
  | none => []
  | some payload => tag :: payload.length :: payload

/-- Modelled from the spec: canonical serialization of an integer value. -/
def serializeInt (i : Int) : List Nat :=
  if 0 ≤ i then [0, i.toNat] else [1, (-i).toNat]

/-- Modelled from the spec: canonical serialization of a string value. -/
def serializeString (s : String) : List Nat :=
  s.length :: s.data.map Char.toNat

/-- Modelled from the spec: canonical serialization of a ModeConfiguration
table; only present fields appear. -/
def serializeModeConfiguration (m : ModeConfiguration) : List Nat :=
  serializeOpt 1 (m.speed.map serializeInt) ++
  serializeOpt 2 (m.data_bits.map serializeInt) ++
  serializeOpt 3 (m.clock_polarity.map serializeInt) ++
  serializeOpt 4 (m.clock_phase.map serializeInt) ++
  serializeOpt 5 (m.chip_select_idle.map serializeInt)

/-- Modelled from the spec: canonical serialization of a StatusRequest. -/
def serializeStatusRequest (r : StatusRequest) : List Nat :=
  r.query.length :: (r.query.map serializeInt).flatten

/-- Modelled from the spec: canonical serialization of a ConfigurationRequest;
the wire form carries exactly the present fields, so a field that was omitted
contributes nothing while a field explicitly set contributes its bytes. -/
def serializeConfigurationRequest (c : ConfigurationRequest) : List Nat :=
  serializeOpt 1 (c.mode.map serializeString) ++
  serializeOpt 2 (c.mode_configuration.map serializeModeConfiguration) ++
  (if c.psu_enable then [3, 1] else []) ++
  (if c.psu_disable then [4, 1] else []) ++
  serializeOpt 5 (c.psu_set_mv.map serializeInt) ++
  serializeOpt 6 (c.psu_set_ma.map serializeInt) ++
  (if c.pullup_enable then [7, 1] else []) ++
  (if c.pullup_disable then [8, 1] else [])

/-- Modelled from the spec: canonical serialization of a DataRequest. -/
def serializeDataRequest (d : DataRequest) : List Nat :=
  (if d.start_main then [1, 1] else []) ++
  (if d.stop_main then [2, 1] else []) ++
  (if d.start_alt then [3, 1] else []) ++
  (if d.stop_alt then [4, 1] else []) ++
  serializeOpt 5 (d.data_write.map (fun w => w.length :: w)) ++
  serializeOpt 6 (d.bytes_read.map (fun n => [n]))

/-- Modelled from the spec: the union tag carried on the wire for each request
payload variant (exact values are fixed by the external schema). -/
def requestContentsTag : RequestPacketContents → Nat
  | .statusRequest _ => 1
  | .configurationRequest _ => 2
  | .dataRequest _ => 3

/-- Modelled from the spec: canonical serialization of the RequestPacket
envelope, carrying the sequence number, the union tag and the payload. -/
def serializeRequestPacket (p : RequestPacket) : List Nat :=
  p.sequence :: requestContentsTag p.contents ::
    (match p.contents with
     | .statusRequest r => serializeStatusRequest r
     | .configurationRequest r => serializeConfigurationRequest r
     | .dataRequest r => serializeDataRequest r)

/-- BPIO2Protocol.build_status_request, up to serialization: assemble the
StatusRequest packet (query defaults to the single tag All only when the
argument is None) and consume one sequence number. -/
def build_status_request_packet (query_types : Option (List Int))
    (p : BPIO2Protocol) : RequestPacket × BPIO2Protocol :=
  let query := match query_types with
    | none => [StatusRequestTypes_All]
    | some q => q
  let (seq, p2) := next_sequence p
  ({ sequence := seq, contents := .statusRequest { query := query } }, p2)

/-- BPIO2Protocol.build_status_request: the serialized message plus the new
instance state. -/
def build_status_request (query_types : Option (List Int))
    (p : BPIO2Protocol) : List Nat × BPIO2Protocol :=
  let (pkt, p2) := build_status_request_packet query_types p
  (serializeRequestPacket pkt, p2)

/-- The field assembly of BPIO2Protocol.build_configuration_request.  A mode
argument that is None or the empty string is falsy and is not added; the
mode_config dict (modelled as an association list) is used only when truthy,
and each of its five known keys is copied when present; psu_enable None adds
neither psu field, psu_enable True adds psu_enable=true, psu_enable False adds
psu_disable=true, and likewise for pullup_enable. -/
def mkConfigurationRequest (mode : Option String)
    (mode_config : Option (List (String × Int)))
    (psu_enable : Option Bool) (psu_voltage_mv : Option Int)
    (psu_current_ma : Option Int) (pullup_enable : Option Bool) :
    ConfigurationRequest :=
  let mode_str : Option String := match mode with
    | none => none
    | some m => if m = "" then none else some m
  let mode_config_obj : Option ModeConfiguration := match mode_config with
    | none => none
    | some mc =>
        if mc = [] then none
        else some { speed := mc.lookup "speed"
                    data_bits := mc.lookup "data_bits"
                    clock_polarity := mc.lookup "clock_polarity"
                    clock_phase := mc.lookup "clock_phase"
                    chip_select_idle := mc.lookup "chip_select_idle" }
  let psu : Bool × Bool := match psu_enable with
    | none => (false, false)
    | some b => if b then (true, false) else (false, true)
  let pullup : Bool × Bool := match pullup_enable with
    | none => (false, false)
    | some b => if b then (true, false) else (false, true)
  { mode := mode_str
    mode_configuration := mode_config_obj
    psu_enable := psu.1
    psu_disable := psu.2
    psu_set_mv := psu_voltage_mv
    psu_set_ma := psu_current_ma
    pullup_enable := pullup.1
    pullup_disable := pullup.2 }

/-- BPIO2Protocol.build_configuration_request, up to serialization. -/
def build_configuration_request_packet (mode : Option String)
    (mode_config : Option (List (String × Int)))
    (psu_enable : Option Bool) (psu_voltage_mv : Option Int)
    (psu_current_ma : Option Int) (pullup_enable : Option Bool)
    (p : BPIO2Protocol) : RequestPacket × BPIO2Protocol :=
  let (seq, p2) := next_sequence p
  ({ sequence := seq
     contents := .configurationRequest
       (mkConfigurationRequest mode mode_config psu_enable psu_voltage_mv
         psu_current_ma pullup_enable) }, p2)

/-- BPIO2Protocol.build_configuration_request: the serialized message plus the
new instance state. -/
def build_configuration_request (mode : Option String)
    (mode_config : Option (List (String × Int)))
    (psu_enable : Option Bool) (psu_voltage_mv : Option Int)
    (psu_current_ma : Option Int) (pullup_enable : Option Bool)
    (p : BPIO2Protocol) : List Nat × BPIO2Protocol :=
  let (pkt, p2) := build_configuration_request_packet mode mode_config
    psu_enable psu_voltage_mv psu_current_ma pullup_enable p
  (serializeRequestPacket pkt, p2)

/-- The field assembly of BPIO2Protocol.build_data_request.  A write_data
argument that is None or empty is falsy, so no data_write vector is built and
the field is omitted; bytes_read is added only when read_len is positive; each
start/stop flag is added only when set. -/
def mkDataRequest (write_data : Option (List Nat)) (read_len : Nat)
    (start stop start_alt stop_alt : Bool) : DataRequest :=
  let write_vec : Option (List Nat) := match write_data with
    | none => none
    | some w => if w = [] then none else some w
  { start_main := start
    stop_main := stop
    start_alt := start_alt
    stop_alt := stop_alt
    data_write := write_vec
    bytes_read := if read_len > 0 then some read_len else none }

/-- BPIO2Protocol.build_data_request, up to serialization. -/
def build_data_request_packet (write_data : Option (List Nat)) (read_len : Nat)
    (start stop start_alt stop_alt : Bool)
    (p : BPIO2Protocol) : RequestPacket × BPIO2Protocol :=
  let (seq, p2) := next_sequence p
  ({ sequence := seq
     contents := .dataRequest
       (mkDataRequest write_data read_len start stop start_alt stop_alt) }, p2)

/-- BPIO2Protocol.build_data_request: the serialized message plus the new
instance state. -/
def build_data_request (write_data : Option (List Nat)) (read_len : Nat)
    (start stop start_alt stop_alt : Bool)
    (p : BPIO2Protocol) : List Nat × BPIO2Protocol :=
  let (pkt, p2) := build_data_request_packet write_data read_len start stop
    start_alt stop_alt p
  (serializeRequestPacket pkt, p2)

/-- One call to one of the three message builders, with its arguments. -/
inductive BuilderCall where
  | status (query_types : Option (List Int))
  | configuration (mode : Option String)
      (mode_config : Option (List (String × Int)))
      (psu_enable : Option Bool) (psu_voltage_mv : Option Int)
      (psu_current_ma : Option Int) (pullup_enable : Option Bool)
  | data (write_data : Option (List Nat)) (read_len : Nat)
      (start stop start_alt stop_alt : Bool)

/-- Dispatch one builder call on the instance state, returning the assembled
packet and the new state. -/
def applyBuilder (c : BuilderCall) (p : BPIO2Protocol) :
    RequestPacket × BPIO2Protocol :=
  match c with
  | .status q => build_status_request_packet q p
  | .configuration m mc pe mv ma pu =>
      build_configuration_request_packet m mc pe mv ma pu p
  | .data wd rl s st sa so => build_data_request_packet wd rl s st sa so p

/-- The sequence numbers embedded in a run of builder calls, in call order. -/
def runBuilders : List BuilderCall → BPIO2Protocol → List Nat
  | [], _ => []
  | c :: cs, p =>
      let (pkt, p2) := applyBuilder c p
      pkt.sequence :: runBuilders cs p2

/-- The instance state after a run of builder calls. -/
def runState : List BuilderCall → BPIO2Protocol → BPIO2Protocol
  | [], p => p
  | c :: cs, p => runState cs (applyBuilder c p).2

/-- A small concrete run used to instantiate the sequence-number theorem. -/
def demo_calls : List BuilderCall :=
  [.status none,
   .data none 0 false false false false,
   .configuration none none none none none none]

/-- Modelled from the spec: the ResponsePacketContents.StatusResponse union
tag of the external schema. -/
def ResponsePacketContents_StatusResponse : Int := 1

/-- Modelled from the spec: the ResponsePacketContents.ConfigurationResponse
union tag of the external schema. -/
def ResponsePacketContents_ConfigurationResponse : Int := 2

/-- Modelled from the spec: the ResponsePacketContents.DataResponse union tag
of the external schema. -/
def ResponsePacketContents_DataResponse : Int := 3

/-- Modelled from the spec: the scalar fields of the outer ResponsePacket as
read through the generated accessors once the root table was resolved. -/
structure ResponsePacketView where
  sequence : Nat
  packet_type : Int

/-- Modelled from the spec: the fields of a StatusResponse as read through the
generated accessors; optional strings are raw byte sequences still to be
UTF-8 decoded, vectors are a length plus an index function. -/
structure StatusResponseView where
  error : Option (List Nat)
  version_flatbuffers_major : Int
  version_flatbuffers_minor : Int
  version_hardware_major : Int
  version_hardware_minor : Int
  version_firmware_major : Int
  version_firmware_minor : Int
  version_firmware_git_hash : Option (List Nat)
  version_firmware_date : Option (List Nat)
  mode_current : Option (List Nat)
  modes_available_length : Nat
  modes_available : Nat → List Nat
  psu_enabled : Bool
  psu_set_mv : Int
  psu_set_ma : Int
  psu_measured_mv : Int
  psu_measured_ma : Int
  psu_current_error : Bool
  pullup_enabled : Bool
  adc_mv_length : Nat
  adc_mv : Nat → Int
  io_direction : Int
  io_value : Int

/-- Modelled from the spec: the fields of a ConfigurationResponse. -/
structure ConfigurationResponseView where
  error : Option (List Nat)

/-- Modelled from the spec: the fields of a DataResponse. -/
structure DataResponseView where
  error : Option (List Nat)
  data_read_length : Nat
  data_read : Nat → Nat

/-- Modelled from the spec: the external FlatBuffers access layer (generated
classes plus runtime, neither of which is in the source tree).  Every
operation may raise on malformed or truncated input, modelled as
Except.error; get_root covers GetRootAs plus the outer scalar accessors, the
init operations cover Packet().Bytes/.Pos plus the sub-table accessors (they
also raise when the union payload is absent, since Packet() then returns None
and the attribute access fails), and decode_utf8 covers bytes.decode. -/
structure FlatbuffersAccess where
  get_root : List Nat → Except Unit ResponsePacketView
  init_status : List Nat → ResponsePacketView → Except Unit StatusResponseView
  init_configuration :
    List Nat → ResponsePacketView → Except Unit ConfigurationResponseView
  init_data : List Nat → ResponsePacketView → Except Unit DataResponseView
  decode_utf8 : List Nat → Except Unit String

/-- A Python value as stored in the parser's result dictionaries. -/
inductive PyValue where
  | vNat (n : Nat)
  | vInt (i : Int)
  | vBool (b : Bool)
  | vStr (s : String)
  | vBytes (b : List Nat)
  | vList (l : List PyValue)
  | vDict (d : List (String × PyValue))

/-- A Python dictionary in insertion order. -/
abbrev PyDict := List (String × PyValue)

/-- BPIO2Protocol._parse_status_response over the access layer's view of a
StatusResponse, propagating any exception of the accessors or of UTF-8
decoding. -/
def parse_status_response (decode_utf8 : List Nat → Except Unit String)
    (status : StatusResponseView) : Except Unit PyDict := do
  let err_entries : PyDict ← match status.error with
    | some eb => do
        let s ← decode_utf8 eb
        pure [("error", PyValue.vStr s)]
    | none => pure []
  let ver_base : PyDict :=
    [("flatbuffers_major", .vInt status.version_flatbuffers_major),
     ("flatbuffers_minor", .vInt status.version_flatbuffers_minor),
     ("hardware_major", .vInt status.version_hardware_major),
     ("hardware_minor", .vInt status.version_hardware_minor),
     ("firmware_major", .vInt status.version_firmware_major),
     ("firmware_minor", .vInt status.version_firmware_minor)]
  let git_entries : PyDict ← match status.version_firmware_git_hash with
    | some gb => do
        let s ← decode_utf8 gb
        pure [("git_hash", PyValue.vStr s)]
    | none => pure []
  let date_entries : PyDict ← match status.version_firmware_date with
    | some db => do
        let s ← decode_utf8 db
        pure [("date", PyValue.vStr s)]
    | none => pure []
  let mode_entries : PyDict ← match status.mode_current with
    | some mb => do
        let s ← decode_utf8 mb
        pure [("mode", PyValue.vStr s)]
    | none => pure []
  let modes_entries : PyDict ←
    if status.modes_available_length > 0 then do
      let names ← (List.range status.modes_available_length).mapM
        (fun i => decode_utf8 (status.modes_available i))
      pure [("modes_available", PyValue.vList (names.map PyValue.vStr))]
    else pure []
  let psu_entry : PyDict :=
    [("psu", PyValue.vDict
      [("enabled", .vBool status.psu_enabled),
       ("set_mv", .vInt status.psu_set_mv),
       ("set_ma", .vInt status.psu_set_ma),
       ("measured_mv", .vInt status.psu_measured_mv),
       ("measured_ma", .vInt status.psu_measured_ma),
       ("current_error", .vBool status.psu_current_error)])]
  let adc_entries : PyDict :=
    if status.adc_mv_length > 0 then
      [("adc_mv", PyValue.vList
        ((List.range status.adc_mv_length).map
          (fun i => PyValue.vInt (status.adc_mv i))))]
    else []
  pure (err_entries ++
    [("version", PyValue.vDict (ver_base ++ git_entries ++ date_entries))] ++
    mode_entries ++ modes_entries ++ psu_entry ++
    [("pullup_enabled", PyValue.vBool status.pullup_enabled)] ++
    adc_entries ++
    [("io", PyValue.vDict
      [("direction", .vInt status.io_direction),
       ("value", .vInt status.io_value)])])

/-- BPIO2Protocol._parse_configuration_response over the access layer's view
of a ConfigurationResponse. -/
def parse_configuration_response
    (decode_utf8 : List Nat → Except Unit String)
    (config : ConfigurationResponseView) : Except Unit PyDict := do
  match config.error with
  | some eb => do
      let s ← decode_utf8 eb
      pure [("error", PyValue.vStr s)]
  | none => pure []

/-- BPIO2Protocol._parse_data_response over the access layer's view of a
DataResponse: the error entry appears only when the error field is present,
and the data_read entry only when DataReadLength() is positive. -/
def parse_data_response (decode_utf8 : List Nat → Except Unit String)
    (data_resp : DataResponseView) : Except Unit PyDict := do
  let err_entries : PyDict ← match data_resp.error with
    | some eb => do
        let s ← decode_utf8 eb
        pure [("error", PyValue.vStr s)]
    | none => pure []
  let read_entries : PyDict :=
    if data_resp.data_read_length > 0 then
      [("data_read", PyValue.vBytes
        ((List.range data_resp.data_read_length).map data_resp.data_read))]
    else []
  pure (err_entries ++ read_entries)

/-- The body of BPIO2Protocol.parse_response inside its try block: resolve the
root, record sequence and type, then dispatch on the packet_type tag; a tag
matching no known variant falls through every branch and the result carries
no data entry. -/
def parse_response_body (acc : FlatbuffersAccess) (data : List Nat) :
    Except Unit PyDict := do
  let response ← acc.get_root data
  let result : PyDict :=
    [("sequence", PyValue.vNat response.sequence),
     ("type", PyValue.vInt response.packet_type)]
  if response.packet_type = ResponsePacketContents_StatusResponse then do
    let status ← acc.init_status data response
    let d ← parse_status_response acc.decode_utf8 status
    pure (result ++ [("data", PyValue.vDict d)])
  else if response.packet_type = ResponsePacketContents_ConfigurationResponse
  then do
    let config ← acc.init_configuration data response
    let d ← parse_configuration_response acc.decode_utf8 config
    pure (result ++ [("data", PyValue.vDict d)])
  else if response.packet_type = ResponsePacketContents_DataResponse then do
    let data_resp ← acc.init_data data response
    let d ← parse_data_response acc.decode_utf8 data_resp
    pure (result ++ [("data", PyValue.vDict d)])
  else
    pure result

/-- BPIO2Protocol.parse_response: the whole body runs inside try/except, so
any exception raised by the access layer or the sub-parsers is caught and
turned into None. -/
def parse_response (acc : FlatbuffersAccess) (data : List Nat) :
    Option PyDict :=
  match parse_response_body acc data with
  | .ok d => some d
  | .error _ => none

/-- A concrete access layer whose root resolves to a well-formed packet with
sequence 7 and the unknown packet_type tag 9; the sub-table and string
operations are never reached on that input. -/
def unknownTagAccess : FlatbuffersAccess :=
  { get_root := fun _ => .ok { sequence := 7, packet_type := 9 }
    init_status := fun _ _ => .error ()
    init_configuration := fun _ _ => .error ()
    init_data := fun _ _ => .error ()
    decode_utf8 := fun _ => .error () }

/-- Modelled from the spec: SPIConfig of hwh.backends (that module is not in
the source tree); the fields are those the backend reads. -/
structure SPIConfig where
  speed_hz : Nat
  mode : Nat
  bits_per_word : Nat
  cs_active_low : Bool

/-- Modelled from the spec: I2CConfig of hwh.backends; the backend reads only
the bus speed. -/
structure I2CConfig where
  speed_hz : Nat

/-- The kind of BPIO2 message written to the transport during one backend
call. -/
inductive WireMsg where
  | statusRequest
  | configurationRequest
  | dataRequest
deriving DecidableEq

/-- BusPirateBackend instance state: the transport client, the SPI and I2C
interface objects (modelled by their presence), the connected flag and the
cached current mode name. -/
structure BusPirateBackend where
  _connected : Bool
  _client : Bool
  _spi : Bool
  _i2c : Bool
  _current_mode : Option String
deriving DecidableEq

/-- BusPirateBackend.configure_spi.  When disconnected it returns False at
once with no transport traffic and no state change; otherwise it creates the
BPIOSPI interface if needed and configures it.  The BPIOSPI.configure call is
modelled from the spec (pybpio.bpio_spi is not in the source tree): configure
sends one ConfigurationRequest and reports the device's success, given here
as dev_success.  On success the cached mode becomes SPI.  The result is the
new state, the returned boolean, and the trace of messages written. -/
def configure_spi (dev_success : Bool) (config : SPIConfig)
    (b : BusPirateBackend) : BusPirateBackend × Bool × List WireMsg :=
  if ¬ b._connected ∨ ¬ b._client then (b, false, [])
  else
    let b2 := { b with _spi := true }
    let _ := config
    if dev_success then
      ({ b2 with _current_mode := some "SPI" }, true,
        [WireMsg.configurationRequest])
    else (b2, false, [WireMsg.configurationRequest])

/-- BusPirateBackend.configure_i2c, exactly parallel to configure_spi with
the BPIOI2C interface (pybpio.bpio_i2c, modelled from the spec) and the
cached mode I2C. -/
def configure_i2c (dev_success : Bool) (config : I2CConfig)
    (b : BusPirateBackend) : BusPirateBackend × Bool × List WireMsg :=
  if ¬ b._connected ∨ ¬ b._client then (b, false, [])
  else
    let b2 := { b with _i2c := true }
    let _ := config
    if dev_success then
      ({ b2 with _current_mode := some "I2C" }, true,
        [WireMsg.configurationRequest])
    else (b2, false, [WireMsg.configurationRequest])

/-- BusPirateBackend.spi_transfer.  It checks only the connected flag and the
presence of the SPI interface object; when both hold it calls
BPIOSPI.transfer, modelled from the spec as sending one DataRequest and
returning the device's reply dev_result (a falsy reply — None or empty —
yields the empty byte sequence).  The cached current mode is not read.  The
result is the new state, the returned bytes, and the trace of messages
written. -/
def spi_transfer (dev_result : Option (List Nat)) (write_data : List Nat)
    (read_len : Nat) (b : BusPirateBackend) :
    BusPirateBackend × List Nat × List WireMsg :=
  if ¬ b._connected ∨ ¬ b._spi then (b, [], [])
  else
    let _ := write_data
    let _ := read_len
    let result := match dev_result with
      | none => []
      | some r => if r = [] then [] else r
    (b, result, [WireMsg.dataRequest])

/-- A connected backend as left by a successful connect: client present,
connected flag set, no bus interface objects yet. -/
def backend_connected : BusPirateBackend :=
  { _connected := true, _client := true, _spi := false, _i2c := false
    _current_mode := none }

/-- A disconnected backend, as constructed. -/
def backend_disconnected : BusPirateBackend :=
  { _connected := false, _client := false, _spi := false, _i2c := false
    _current_mode := none }

/-- The SPI configuration used in the concrete scenario. -/
def demo_spi_config : SPIConfig :=
  { speed_hz := 1000000, mode := 0, bits_per_word := 8, cs_active_low := true }

/-- The I2C configuration used in the concrete scenario. -/
def demo_i2c_config : I2CConfig :=
  { speed_hz := 400000 }

/-- The backend after configure_spi succeeded on the connected backend. -/
def backend_after_spi : BusPirateBackend :=
  (configure_spi true demo_spi_config backend_connected).1

/-- The backend after configure_i2c then also succeeded, so the cached mode
is I2C while the SPI interface object still exists. -/
def backend_after_i2c : BusPirateBackend :=
  (configure_i2c true demo_i2c_config backend_after_spi).1

/-- An access layer whose root resolution always raises, standing for input
the FlatBuffers runtime rejects outright. -/
def failingAccess : FlatbuffersAccess :=
  { get_root := fun _ => .error ()
    init_status := fun _ _ => .error ()
    init_configuration := fun _ _ => .error ()
    init_data := fun _ _ => .error ()
    decode_utf8 := fun _ => .error () }

/-- A DataResponse view with no error and an empty data_read vector. -/
def demo_data_view : DataResponseView :=
  { error := none, data_read_length := 0, data_read := fun _ => 0 }

/-- A UTF-8 decoder stub; never reached on the inputs it is used with. -/
def demo_utf8 : List Nat → Except Unit String :=
  fun _ => .error ()

theorem cobs_encode_loop_ne_nil (data : List Nat) :
    ∀ block final_zero, (block ≠ [] ∨ final_zero = true ∨ data ≠ []) →
    cobs_encode_loop block final_zero data ≠ [] := by
  induction data with
  | nil =>
      intro block fz h
      simp only [cobs_encode_loop]
      split
      · rename_i hc
        rcases h with h | h | h
        · exact absurd hc.1 h
        · rw [h] at hc; exact absurd hc.2 (by simp)
        · exact absurd rfl h
      · simp
  | cons b rest ih =>
      intro block fz h
      simp only [cobs_encode_loop]
      split
      · simp
      · split
        · simp
        · exact ih (block ++ [b]) fz (Or.inl (by simp))

theorem cobs_encode_loop_zero_not_mem (data : List Nat) :
    ∀ block final_zero, 0 ∉ block →
    0 ∉ cobs_encode_loop block final_zero data := by
  induction data with
  | nil =>
      intro block fz h0
      simp only [cobs_encode_loop]
      split
      · simp
      · simp [h0]
  | cons b rest ih =>
      intro block fz h0
      simp only [cobs_encode_loop]
      split
      · rename_i hb
        have hrec := ih [] true (by simp)
        have hlen : (0 : Nat) ≠ block.length + 1 := by omega
        intro hmem
        simp only [List.cons_append, List.mem_cons, List.mem_append]
          at hmem
        tauto
      · split
        · rename_i hb hfull
          have hrec := ih [] false (by simp)
          have h255 : (0 : Nat) ≠ 255 := by omega
          have hbb : (0 : Nat) ≠ b := fun e => hb e.symm
          intro hmem
          simp only [List.cons_append, List.mem_cons, List.mem_append,
            List.mem_singleton] at hmem
          tauto
        · rename_i hb hfull
          have hbb : (0 : Nat) ≠ b := fun e => hb e.symm
          refine ih (block ++ [b]) fz ?_
          intro hmem
          simp only [List.mem_append, List.mem_singleton] at hmem
          tauto

theorem cobs_decode_loop_chunk (f : Nat) (block R : List Nat)
    (hlen : block.length ≤ 253) (h0 : 0 ∉ block) :
    cobs_decode_loop (f + 1) ((block.length + 1) :: (block ++ R)) =
      if R = [] then .ok block
      else (cobs_decode_loop f R).map (fun t => block ++ 0 :: t) := by
  simp only [cobs_decode_loop]
  rw [if_neg (by omega : ¬ block.length + 1 = 0)]
  have hsub : block.length + 1 - 1 = block.length := by omega
  rw [hsub, List.take_left, List.drop_left, if_neg h0]
  rw [if_neg (by rw [List.length_append]; omega)]
  split
  · rfl
  · rw [if_pos (by omega : block.length + 1 < 255)]

theorem cobs_decode_loop_chunk_full (f : Nat) (block R : List Nat)
    (hlen : block.length = 254) (h0 : 0 ∉ block) :
    cobs_decode_loop (f + 1) (255 :: (block ++ R)) =
      if R = [] then .ok block
      else (cobs_decode_loop f R).map (fun t => block ++ t) := by
  simp only [cobs_decode_loop]
  rw [if_neg (by omega : ¬ (255 : Nat) = 0)]
  have hsub : (255 : Nat) - 1 = block.length := by omega
  rw [hsub, List.take_left, List.drop_left, if_neg h0]
  rw [if_neg (by rw [List.length_append]; omega)]
  split
  · rfl
  · rw [if_neg (by omega : ¬ (255 : Nat) < 255)]

theorem cobs_decode_encode_loop (data : List Nat) :
    ∀ block fz fuel, block.length ≤ 253 → 0 ∉ block →
    (block ≠ [] ∨ fz = true ∨ data ≠ []) →
    (cobs_encode_loop block fz data).length ≤ fuel →
    cobs_decode_loop fuel (cobs_encode_loop block fz data) =
      .ok (block ++ data) := by
  induction data with
  | nil =>
      intro block fz fuel hlen h0 hlive hfuel
      have hcond : ¬(block = [] ∧ fz = false) := by
        rcases hlive with h | h | h
        · tauto
        · simp [h]
        · exact absurd rfl h
      simp only [cobs_encode_loop] at hfuel ⊢
      rw [if_neg hcond] at hfuel ⊢
      cases fuel with
      | zero => simp at hfuel
      | succ f =>
          have hch := cobs_decode_loop_chunk f block [] hlen h0
          rw [List.append_nil, if_pos rfl] at hch
          simpa using hch
  | cons b rest ih =>
      intro block fz fuel hlen h0 hlive hfuel
      by_cases hb : b = 0
      · subst hb
        simp only [cobs_encode_loop] at hfuel ⊢
        rw [if_pos trivial] at hfuel ⊢
        have hElive : cobs_encode_loop [] true rest ≠ [] :=
          cobs_encode_loop_ne_nil rest [] true (by simp)
        cases fuel with
        | zero => simp at hfuel
        | succ f =>
            have hfE : (cobs_encode_loop [] true rest).length ≤ f := by
              simp only [List.cons_append, List.length_cons,
                List.length_append] at hfuel
              omega
            rw [List.cons_append,
              cobs_decode_loop_chunk f block _ hlen h0, if_neg hElive,
              ih [] true f (by simp) (by simp) (by simp) hfE]
            simp [Except.map]
      · by_cases hfull : block.length = 253
        · simp only [cobs_encode_loop] at hfuel ⊢
          rw [if_neg hb, if_pos hfull] at hfuel ⊢
          cases fuel with
          | zero => simp at hfuel
          | succ f =>
              have h0b : 0 ∉ block ++ [b] := by
                intro hmem
                simp only [List.mem_append, List.mem_singleton] at hmem
                rcases hmem with h | h
                · exact h0 h
                · exact hb h.symm
              have hlenb : (block ++ [b]).length = 254 := by
                simp [hfull]
              rw [List.cons_append,
                cobs_decode_loop_chunk_full f (block ++ [b]) _ hlenb h0b]
              by_cases hrest : rest = []
              · subst hrest
                have hE : cobs_encode_loop [] false ([] : List Nat) = [] := by
                  simp [cobs_encode_loop]
                rw [hE, if_pos rfl]
              · have hElive : cobs_encode_loop [] false rest ≠ [] :=
                  cobs_encode_loop_ne_nil rest [] false (by simp [hrest])
                have hfE : (cobs_encode_loop [] false rest).length ≤ f := by
                  simp only [List.cons_append, List.length_cons,
                    List.length_append] at hfuel
                  omega
                rw [if_neg hElive,
                  ih [] false f (by simp) (by simp)
                    (Or.inr (Or.inr hrest)) hfE]
                simp [Except.map]
        · simp only [cobs_encode_loop] at hfuel ⊢
          rw [if_neg hb, if_neg hfull] at hfuel ⊢
          have h0b : 0 ∉ block ++ [b] := by
            intro hmem
            simp only [List.mem_append, List.mem_singleton] at hmem
            rcases hmem with h | h
            · exact h0 h
            · exact hb h.symm
          rw [ih (block ++ [b]) fz fuel (by simp; omega) h0b
            (Or.inl (by simp)) hfuel]
          simp

theorem cobs_round_trip (b : List Nat) : cobs_decode (cobs_encode b) = .ok b := by
  have hne : cobs_encode b ≠ [] :=
    cobs_encode_loop_ne_nil b [] true (by simp)
  unfold cobs_decode
  rw [if_neg hne]
  have := cobs_decode_encode_loop b [] true (cobs_encode b).length
    (by simp) (by simp) (by simp) (le_refl _)
  simpa [cobs_encode] using this

/-- C6: for every payload, the framed message produced by encode_message
contains exactly one zero byte, that zero is its final byte, and no byte
before the terminator is zero. -/
theorem encode_message_single_trailing_zero (b : List Nat) :
    (encode_message b).count 0 = 1 ∧
    (encode_message b).getLast? = some 0 ∧
    0 ∉ (encode_message b).dropLast := by
  have h0 : 0 ∉ cobs_encode b :=
    cobs_encode_loop_zero_not_mem b [] true (by simp)
  refine ⟨?_, ?_, ?_⟩
  · rw [encode_message, List.count_append,
      List.count_eq_zero.mpr h0]
    rfl
  · rw [encode_message]
    exact List.getLast?_concat _
  · rw [encode_message, List.dropLast_concat]
    exact h0

/-- C4 counterexample: feeding the framed message straight back into
decode_message fails (the frame terminator is an embedded zero, which COBS
decoding rejects), so decode_message (encode_message b) is not b; at the
concrete payload [] it is an error. -/
theorem decode_message_encode_message_fails :
    decode_message (encode_message []) = .error () := rfl

/-- C4 amended: once the 0x00 terminator appended by encode_message is
stripped, decoding returns exactly the original payload. -/
theorem decode_message_encode_message_dropLast (b : List Nat) :
    decode_message ((encode_message b).dropLast) = .ok b := by
  rw [encode_message, List.dropLast_concat]
  exact cobs_round_trip b

theorem applyBuilder_sequence (c : BuilderCall) (p : BPIO2Protocol) :
    (applyBuilder c p).1.sequence = p._sequence ∧
    (applyBuilder c p).2._sequence = (p._sequence + 1) % 65536 := by
  have hmask : (p._sequence + 1) &&& 0xFFFF = (p._sequence + 1) % 65536 := by
    have h := Nat.and_pow_two_sub_one_eq_mod (p._sequence + 1) 16
    norm_num at h
    exact h
  cases c <;>
    simp [applyBuilder, build_status_request_packet,
      build_configuration_request_packet, build_data_request_packet,
      next_sequence, hmask]

theorem runBuilders_getD (cs : List BuilderCall) :
    ∀ p k, p._sequence < 65536 → k < cs.length →
    (runBuilders cs p).getD k 0 = (p._sequence + k) % 65536 := by
  induction cs with
  | nil =>
      intro p k _ hk
      simp at hk
  | cons c cs ih =>
      intro p k hp hk
      obtain ⟨hseq, hnext⟩ := applyBuilder_sequence c p
      rcases hap : applyBuilder c p with ⟨pkt, p2⟩
      rw [hap] at hseq hnext
      simp only [] at hseq hnext
      cases k with
      | zero =>
          simp [runBuilders, hap, hseq, Nat.mod_eq_of_lt hp]
      | succ k =>
          have hlt : p2._sequence < 65536 := by
            rw [hnext]
            exact Nat.mod_lt _ (by omega)
          have hih := ih p2 k hlt (by simpa using hk)
          simp only [runBuilders, hap, List.getD_cons_succ]
          rw [hih, hnext, Nat.mod_add_mod]
          congr 1
          omega

theorem runState_lt (cs : List BuilderCall) :
    ∀ p, p._sequence < 65536 → (runState cs p)._sequence < 65536 := by
  induction cs with
  | nil => intro p hp; simpa [runState] using hp
  | cons c cs ih =>
      intro p hp
      obtain ⟨_, hnext⟩ := applyBuilder_sequence c p
      exact ih _ (by rw [hnext]; exact Nat.mod_lt _ (by omega))

/-- C5: over any run of builder calls on a fresh BPIO2Protocol instance, each
call's sequence number is the previous call's plus one modulo 65536, every
issued sequence number is below 65536, no sequence number repeats within a
window of at most 65536 consecutive calls, and the internal counter stays
below 65536. -/
theorem sequence_numbers_increase_mod_65536 (calls : List BuilderCall) :
    (∀ k, k + 1 < calls.length →
      (runBuilders calls BPIO2Protocol.init).getD (k + 1) 0 =
        ((runBuilders calls BPIO2Protocol.init).getD k 0 + 1) % 65536) ∧
    (∀ k, k < calls.length →
      (runBuilders calls BPIO2Protocol.init).getD k 0 < 65536) ∧
    (∀ i j, i < j → j < i + 65536 → j < calls.length →
      (runBuilders calls BPIO2Protocol.init).getD i 0 ≠
        (runBuilders calls BPIO2Protocol.init).getD j 0) ∧
    (runState calls BPIO2Protocol.init)._sequence < 65536 := by
  have hz : BPIO2Protocol.init._sequence = 0 := rfl
  have hg : ∀ k, k < calls.length →
      (runBuilders calls BPIO2Protocol.init).getD k 0 = k % 65536 := by
    intro k hk
    have h := runBuilders_getD calls BPIO2Protocol.init k
      (by rw [hz]; omega) hk
    simpa [BPIO2Protocol.init] using h
  refine ⟨?_, ?_, ?_, ?_⟩
  · intro k hk
    rw [hg (k + 1) hk, hg k (by omega)]
    omega
  · intro k hk
    rw [hg k hk]
    exact Nat.mod_lt _ (by omega)
  · intro i j hij hwin hj
    rw [hg i (by omega), hg j hj]
    omega
  · exact runState_lt calls _ (by rw [hz]; omega)

/-- C5 witness: on the concrete three-call run the increments, the range
bound and the distinctness hold at explicit indices. -/
theorem sequence_numbers_increase_mod_65536_witness :
    (runBuilders demo_calls BPIO2Protocol.init).getD 1 0 =
      ((runBuilders demo_calls BPIO2Protocol.init).getD 0 0 + 1) % 65536 ∧
    (runBuilders demo_calls BPIO2Protocol.init).getD 2 0 < 65536 ∧
    (runBuilders demo_calls BPIO2Protocol.init).getD 0 0 ≠
      (runBuilders demo_calls BPIO2Protocol.init).getD 2 0 :=
  ⟨(sequence_numbers_increase_mod_65536 demo_calls).1 0 (by decide),
   (sequence_numbers_increase_mod_65536 demo_calls).2.1 2 (by decide),
   (sequence_numbers_increase_mod_65536 demo_calls).2.2.1 0 2 (by decide)
     (by decide) (by decide)⟩

/-- C3: with the same instance state and all other arguments equal, the
configuration request built with psu_enable omitted carries neither psu
field, the one built with psu_enable False carries psu_disable set, and
their serialized byte sequences differ. -/
theorem configuration_request_psu_none_vs_false (p : BPIO2Protocol)
    (mode : Option String) (mode_config : Option (List (String × Int)))
    (psu_voltage_mv psu_current_ma : Option Int)
    (pullup_enable : Option Bool) :
    (mkConfigurationRequest mode mode_config none psu_voltage_mv
        psu_current_ma pullup_enable).psu_enable = false ∧
    (mkConfigurationRequest mode mode_config none psu_voltage_mv
        psu_current_ma pullup_enable).psu_disable = false ∧
    (mkConfigurationRequest mode mode_config (some false) psu_voltage_mv
        psu_current_ma pullup_enable).psu_enable = false ∧
    (mkConfigurationRequest mode mode_config (some false) psu_voltage_mv
        psu_current_ma pullup_enable).psu_disable = true ∧
    (build_configuration_request mode mode_config none psu_voltage_mv
        psu_current_ma pullup_enable p).1 ≠
      (build_configuration_request mode mode_config (some false)
        psu_voltage_mv psu_current_ma pullup_enable p).1 := by
  refine ⟨rfl, rfl, rfl, rfl, ?_⟩
  intro h
  have hlen := congrArg List.length h
  simp [build_configuration_request, build_configuration_request_packet,
    serializeRequestPacket, serializeConfigurationRequest,
    mkConfigurationRequest, next_sequence] at hlen
  omega

/-- C9: with the same instance state and all other arguments equal, a data
request built with an empty write_data serializes exactly like one built
with write_data None, and in both the data_write field is omitted. -/
theorem data_request_empty_write_eq_none (p : BPIO2Protocol) (read_len : Nat)
    (start stop start_alt stop_alt : Bool) :
    build_data_request (some []) read_len start stop start_alt stop_alt p =
      build_data_request none read_len start stop start_alt stop_alt p ∧
    (mkDataRequest (some []) read_len start stop start_alt
        stop_alt).data_write = none := by
  constructor
  · rfl
  · rfl


/-- C1 counterexample: a well-formed packet with the unknown tag 9 makes
parse_response return a dictionary holding only sequence and type — not
None as the claim states. -/
theorem parse_response_unknown_tag_counterexample :
    parse_response unknownTagAccess [] =
      some [("sequence", PyValue.vNat 7), ("type", PyValue.vInt 9)] ∧
    parse_response unknownTagAccess [] ≠ none := by
  have h : parse_response unknownTagAccess [] =
      some [("sequence", PyValue.vNat 7), ("type", PyValue.vInt 9)] := rfl
  exact ⟨h, by rw [h]; exact Option.some_ne_none _⟩

/-- C1 amended: on any input whose root resolves to a packet whose tag is
none of the three known variants, parse_response raises nothing and returns
the dictionary holding exactly the sequence and type entries, with no data
entry. -/
theorem parse_response_unknown_tag (acc : FlatbuffersAccess)
    (data : List Nat) (view : ResponsePacketView)
    (hroot : acc.get_root data = .ok view)
    (h1 : view.packet_type ≠ ResponsePacketContents_StatusResponse)
    (h2 : view.packet_type ≠ ResponsePacketContents_ConfigurationResponse)
    (h3 : view.packet_type ≠ ResponsePacketContents_DataResponse) :
    parse_response acc data =
      some [("sequence", PyValue.vNat view.sequence),
            ("type", PyValue.vInt view.packet_type)] := by
  unfold parse_response parse_response_body
  rw [hroot]
  simp only [Except.bind, bind, if_neg h1, if_neg h2, if_neg h3, pure,
    Except.pure]

/-- C1 witness: the amended statement instantiated at the concrete unknown
tag 9. -/
theorem parse_response_unknown_tag_witness :
    parse_response unknownTagAccess [] =
      some [("sequence", PyValue.vNat 7), ("type", PyValue.vInt 9)] :=
  parse_response_unknown_tag unknownTagAccess []
    { sequence := 7, packet_type := 9 } rfl (by decide) (by decide)
    (by decide)

/-- C7: parse_response never lets an exception escape: whatever the access
layer does on whatever bytes, the result is some dictionary or none, any
exception of the body is caught and mapped to none, and any clean body
result is returned as a dictionary. -/
theorem parse_response_total (acc : FlatbuffersAccess) (data : List Nat) :
    ((∃ d, parse_response acc data = some d) ∨
      parse_response acc data = none) ∧
    (∀ e, parse_response_body acc data = .error e →
      parse_response acc data = none) ∧
    (∀ d, parse_response_body acc data = .ok d →
      parse_response acc data = some d) := by
  refine ⟨?_, ?_, ?_⟩
  · cases hb : parse_response_body acc data with
    | ok d => exact Or.inl ⟨d, by simp [parse_response, hb]⟩
    | error e => exact Or.inr (by simp [parse_response, hb])
  · intro e he
    simp [parse_response, he]
  · intro d hd
    simp [parse_response, hd]

/-- C7 witness: on an access layer that raises at the root, the exception is
caught and parse_response returns none. -/
theorem parse_response_total_witness :
    parse_response failingAccess [] = none :=
  (parse_response_total failingAccess []).2.1 () rfl

/-- C10: when a DataResponse's data_read vector has length zero, the parsed
dictionary has no data_read entry at all, and when additionally the error
field is absent the dictionary is empty, so a zero-byte read is
indistinguishable from a response carrying no read data. -/
theorem parse_data_response_empty_read
    (decode_utf8 : List Nat → Except Unit String)
    (view : DataResponseView) (d : PyDict)
    (hlen : view.data_read_length = 0)
    (hparse : parse_data_response decode_utf8 view = .ok d) :
    d.lookup "data_read" = none ∧ (view.error = none → d = []) := by
  unfold parse_data_response at hparse
  cases herr : view.error with
  | none =>
      rw [herr] at hparse
      simp [Except.bind, bind, pure, Except.pure, hlen] at hparse
      subst hparse
      exact ⟨rfl, fun _ => rfl⟩
  | some eb =>
      rw [herr] at hparse
      cases hdu : decode_utf8 eb with
      | error e =>
          simp [hdu, Except.bind, bind, pure, Except.pure] at hparse
      | ok s =>
          simp [hdu, Except.bind, bind, pure, Except.pure, hlen] at hparse
          subst hparse
          refine ⟨by simp [List.lookup], fun hc => absurd hc (by simp)⟩

/-- C10 witness: a view with no error and an empty vector parses to the
empty dictionary, which indeed has no data_read entry. -/
theorem parse_data_response_empty_read_witness :
    ([] : PyDict).lookup "data_read" = none ∧
    (demo_data_view.error = none → ([] : PyDict) = []) :=
  parse_data_response_empty_read demo_utf8 demo_data_view [] rfl rfl

/-- C2 counterexample: after configure_spi succeeds and configure_i2c then
succeeds, the cached mode is I2C, yet spi_transfer still writes a
DataRequest to the transport instead of being rejected locally. -/
theorem spi_transfer_in_i2c_mode_sends :
    (configure_spi true demo_spi_config backend_connected).2.1 = true ∧
    (configure_i2c true demo_i2c_config backend_after_spi).2.1 = true ∧
    backend_after_i2c._current_mode = some "I2C" ∧
    (spi_transfer (some [171]) [159] 3 backend_after_i2c).2.2 =
      [WireMsg.dataRequest] := by
  exact ⟨rfl, rfl, rfl, rfl⟩

/-- C2 amended: spi_transfer is rejected locally with no transport writes
exactly when the backend is disconnected or its SPI interface object was
never created; the cached current mode is not consulted, so whenever the
backend is connected and the SPI object exists — whatever the cached mode,
including I2C — the call writes a DataRequest. -/
theorem spi_transfer_guard (dev_result : Option (List Nat))
    (write_data : List Nat) (read_len : Nat) (b : BusPirateBackend) :
    (b._connected = false ∨ b._spi = false →
      spi_transfer dev_result write_data read_len b = (b, [], [])) ∧
    (b._connected = true → b._spi = true →
      (spi_transfer dev_result write_data read_len b).2.2 =
        [WireMsg.dataRequest]) := by
  constructor
  · intro h
    rcases h with h | h <;> simp [spi_transfer, h]
  · intro h1 h2
    simp [spi_transfer, h1, h2]

/-- C2 amended witness: the guard fires on a disconnected backend, and with
cached mode I2C a DataRequest is still sent. -/
theorem spi_transfer_guard_witness :
    spi_transfer none [] 0 backend_disconnected =
      (backend_disconnected, [], []) ∧
    (spi_transfer (some [171]) [159] 3 backend_after_i2c).2.2 =
      [WireMsg.dataRequest] :=
  ⟨(spi_transfer_guard none [] 0 backend_disconnected).1 (Or.inl rfl),
   (spi_transfer_guard (some [171]) [159] 3 backend_after_i2c).2 rfl rfl⟩

/-- C8: when the backend is not connected or its client is gone,
configure_spi and configure_i2c return False at once, write nothing to the
transport, and leave every part of the backend state unchanged. -/
theorem configure_disconnected_noop (dev_success : Bool) (sc : SPIConfig)
    (ic : I2CConfig) (b : BusPirateBackend)
    (h : b._connected = false ∨ b._client = false) :
    configure_spi dev_success sc b = (b, false, []) ∧
    configure_i2c dev_success ic b = (b, false, []) := by
  rcases h with h | h <;>
    exact ⟨by simp [configure_spi, h], by simp [configure_i2c, h]⟩

/-- C8 witness: the guard instantiated on the disconnected backend. -/
theorem configure_disconnected_noop_witness :
    configure_spi true demo_spi_config backend_disconnected =
      (backend_disconnected, false, []) ∧
    configure_i2c true demo_i2c_config backend_disconnected =
      (backend_disconnected, false, []) :=
  configure_disconnected_noop true demo_spi_config demo_i2c_config
    backend_disconnected (Or.inl rfl)

/-- C3 witness: the byte-sequence difference at concrete arguments, from a
fresh instance with every other argument omitted. -/
theorem configuration_request_psu_none_vs_false_witness :
    (build_configuration_request none none none none none none
        BPIO2Protocol.init).1 ≠
      (build_configuration_request none none (some false) none none none
        BPIO2Protocol.init).1 :=
  (configuration_request_psu_none_vs_false BPIO2Protocol.init none none
    none none none).2.2.2.2

/-- C4 amended witness: the round trip through the framing layer at a
concrete payload containing a zero byte. -/
theorem decode_message_encode_message_dropLast_witness :
    decode_message ((encode_message [5, 0, 6]).dropLast) = .ok [5, 0, 6] :=
  decode_message_encode_message_dropLast [5, 0, 6]

/-- C6 witness: the single trailing zero on a concrete payload that itself
contains a zero byte. -/
theorem encode_message_single_trailing_zero_witness :
    (encode_message [1, 0, 2]).count 0 = 1 ∧
    (encode_message [1, 0, 2]).getLast? = some 0 ∧
    0 ∉ (encode_message [1, 0, 2]).dropLast :=
  encode_message_single_trailing_zero [1, 0, 2]

/-- C9 witness: the builder instantiated at a fresh instance with an empty
write and with no write, producing identical output. -/
theorem data_request_empty_write_eq_none_witness :
    build_data_request (some []) 4 true false false false
        BPIO2Protocol.init =
      build_data_request none 4 true false false false
        BPIO2Protocol.init :=
  (data_request_empty_write_eq_none BPIO2Protocol.init 4 true false false
    false).1
